import Mathlib

/-!
Verification of the quote acquisition and economic-normalization engine of
`src/crypto_prices/scraper.py`.

Python floats are modelled as rationals (`ℚ`); a JSON field that may be
absent is an `Option`; Python truthiness on such a value (`if amount_in:`)
is `pyTruthy`; a raised Python exception is the `Except.error` branch of a
`PyError` result.  Network I/O is modelled by passing the upstream outcome
(or a stream of outcomes, one per attempt) as an explicit argument.
-/

namespace Scraper

/-- A Python exception escaping a modelled code path. -/
inductive PyError where
  | typeError  : PyError
  | indexError : PyError
  deriving DecidableEq, Repr

/-- A `requests.exceptions.RequestException` (transport error or non-2xx
status raised by `raise_for_status`) from the quote endpoint. -/
inductive ReqError where
  | requestException : ReqError
  deriving DecidableEq, Repr

/-- Python truthiness of a possibly-absent float: `None` and `0.0` are
falsy, every other value is truthy. -/
def pyTruthy : Option ℚ → Bool
  | none => false
  | some x => x != 0

/-- The `quote` object of one provider entry (`item["quote"]`), fields as
read in `main` (scraper.py lines 209-214).  `amountIn`, `amountOut`,
`exchangeRate` are read with `.get(key)` (absent ⇒ `None`); the three fee
fields are read with `.get(key, 0)`, so an absent fee defaults to `0`. -/
structure Quote where
  amountIn     : Option ℚ
  amountOut    : Option ℚ
  exchangeRate : Option ℚ
  networkFee   : Option ℚ
  providerFee  : Option ℚ
  extraFee     : Option ℚ
  deriving DecidableEq, Repr

/-- The derived economic metrics computed in `main` (lines 216-242). -/
structure Derived where
  expectedAmountOut      : ℚ
  spread                 : ℚ
  spreadPercentage       : ℚ
  spreadInFiat           : ℚ
  totalExplicitFee       : ℚ
  totalFeeIncludingSpread : ℚ
  totalFeePercentage     : ℚ
  deriving DecidableEq, Repr

/-- The metric derivation of scraper.py lines 212-242, for one raw quote
and the resolved market rate (`none` = unresolved / cached failure marker).

Faithful points: the guard on line 222 is
`if market_rate and market_rate > 0 and amount_in:` (truthiness, so a
present-but-zero `amountIn` takes the degraded path); line 229 guards the
spread block with `if amount_out:`; line 231 divides by
`expected_amount_out` only when it is `> 0`; line 242 evaluates
`amount_in > 0`, which raises `TypeError` when `amount_in` is `None`
(`None > 0` is not a valid Python 3 comparison) — hence the `match` on
`q.amountIn` producing `Except.error PyError.typeError`. -/
def derive (market_rate : Option ℚ) (q : Quote) : Except PyError Derived :=
  let network_fee : ℚ := q.networkFee.getD 0
  let provider_fee : ℚ := q.providerFee.getD 0
  let extra_fee : ℚ := q.extraFee.getD 0
  -- lines 217-233: (expected_amount_out, spread, spread_percentage, spread_in_fiat)
  let core : ℚ × ℚ × ℚ × ℚ :=
    if pyTruthy market_rate ∧ 0 < market_rate.getD 0 ∧ pyTruthy q.amountIn then
      let amount_in : ℚ := q.amountIn.getD 0
      let amount_after_fees := amount_in - network_fee - provider_fee - extra_fee
      let expected_amount_out := amount_after_fees / market_rate.getD 0
      if pyTruthy q.amountOut then
        let spread := expected_amount_out - q.amountOut.getD 0
        let spread_percentage :=
          if 0 < expected_amount_out then spread / expected_amount_out * 100 else 0
        let spread_in_fiat := spread * market_rate.getD 0
        (expected_amount_out, spread, spread_percentage, spread_in_fiat)
      else
        (expected_amount_out, 0, 0, 0)
    else
      (0, 0, 0, 0)
  let total_explicit_fee := network_fee + provider_fee + extra_fee
  let total_fee_including_spread := total_explicit_fee + core.2.2.2
  match q.amountIn with
  | none => Except.error PyError.typeError   -- line 242: `None > 0` raises
  | some a =>
      Except.ok {
        expectedAmountOut := core.1
        spread := core.2.1
        spreadPercentage := core.2.2.1
        spreadInFiat := core.2.2.2
        totalExplicitFee := total_explicit_fee
        totalFeeIncludingSpread := total_fee_including_spread
        totalFeePercentage :=
          if 0 < a then total_fee_including_spread / a * 100 else 0 }

/-- One upstream outcome of `requests.get` + `raise_for_status` + `.json()`
inside `get_market_rate` (lines 28-44).  `success v` is a 2xx JSON response
whose `value` field is `v` (absent ⇒ `none`, and `float(data.get('value', 0))`
turns it into `0`); `rateLimited` is an `HTTPError` with status 429;
`otherError` is any other failure (non-2xx other than 429, transport error,
malformed body), all of which reach a `return None`. -/
inductive Outcome where
  | success     : Option ℚ → Outcome
  | rateLimited : Outcome
  | otherError  : Outcome
  deriving DecidableEq, Repr

/-- What one run of the retry loop of `get_market_rate` produced: the
returned value (`none` = the Python `None`), the backoff delays slept (in
order), and the number of upstream requests issued. -/
structure ResolverRun where
  result   : Option ℚ
  sleeps   : List ℕ
  attempts : ℕ
  deriving DecidableEq, Repr

/-- The retry loop of `get_market_rate` (lines 25-47): `retries = 3`,
`delay = 1`; on a 429 sleep `delay` then double it and retry; on any other
failure return `None` at once; after exhausting the attempts return `None`.
`env i` is the upstream outcome of the `i`-th request (0-based). -/
def resolverLoop (env : ℕ → Outcome) : ℕ → ℕ → ℕ → ResolverRun
  | 0, _, _ => ⟨none, [], 0⟩
  | fuel + 1, delay, i =>
      match env i with
      | Outcome.success v => ⟨some (v.getD 0), [], 1⟩
      | Outcome.otherError => ⟨none, [], 1⟩
      | Outcome.rateLimited =>
          let r := resolverLoop env fuel (delay * 2) (i + 1)
          ⟨r.result, delay :: r.sleeps, r.attempts + 1⟩

/-- Python's `s.split(sep)` for a one-character separator, over the
character list of the string: splitting at every occurrence of `sep`,
keeping empty segments (so `"".split('/') = ['']`). -/
def pySplit (sep : Char) : List Char → List (List Char)
  | [] => [[]]
  | c :: rest =>
      let ps := pySplit sep rest
      if c = sep then [] :: ps
      else (c :: ps.headD []) :: ps.tail

/-- `get_market_rate` (lines 5-47).  Before the try/retry block it runs
`parts = crypto_currency_id.split('/')` and indexes `parts[3]` and
`parts[4]` (lines 12-14) with no handler around them, so an identifier with
fewer than five `/`-separated segments raises `IndexError` out of the
function; `chain_id` and `token_address` only feed the request URL. -/
def get_market_rate (crypto_currency_id : String) (env : ℕ → Outcome) :
    Except PyError ResolverRun :=
  let parts := pySplit '/' crypto_currency_id.toList
  if 4 < parts.length then
    Except.ok (resolverLoop env 3 1 0)
  else
    Except.error PyError.indexError

/-- The market-rate cache step of `main` (lines 185-196): the cache maps
`cache_key` to a rate or to the explicit failure marker `None`.  On a miss
the fetched value is stored if truthy (`if market_rate:`), else `None` is
stored; either way the value then used is the cached one.  `fetch` is the
value `get_market_rate` would return on this miss; the third component
counts upstream resolver calls made by this step. -/
def resolveCached (fetch : Option ℚ) (cache : List (String × Option ℚ))
    (key : String) : Option ℚ × List (String × Option ℚ) × ℕ :=
  match cache.lookup key with
  | some v => (v, cache, 0)
  | none =>
      let stored := if pyTruthy fetch then fetch else none
      (stored, (key, stored) :: cache, 1)

/-- The cache key of line 186: `f"{crypto_id}_{currency_code}"`. -/
def mkCacheKey (crypto_id currency_code : String) : String :=
  crypto_id ++ "_" ++ currency_code

/-- `item["providerInfo"]`, possibly absent, possibly without a name. -/
structure ProviderInfo where
  name : Option String
  deriving DecidableEq, Repr

/-- One entry of the response's `success` array (lines 206-208): the
provider info and the `quote` object, each possibly absent. -/
structure Item where
  providerInfo : Option ProviderInfo
  quote        : Option Quote
  deriving DecidableEq, Repr

/-- Line 207: `item.get("providerInfo", {}).get("name", "N/A")`. -/
def itemProviderName (it : Item) : String :=
  ((it.providerInfo.getD ⟨none⟩).name).getD "N/A"

/-- Line 208: `item.get("quote", {})` — an absent quote object behaves as a
dict with every field absent. -/
def itemQuote (it : Item) : Quote :=
  it.quote.getD ⟨none, none, none, none, none, none⟩

/-- One row appended to `rows_to_insert` (lines 244-265), restricted to the
per-quote fields; the remaining columns (timestamp, fiat/crypto/region/
payment-method labels) are request context copied in unchanged and carry no
computation. -/
structure Row where
  provider     : String
  rank         : ℕ
  amountIn     : Option ℚ
  amountOut    : Option ℚ
  exchangeRate : Option ℚ
  marketRate   : Option ℚ
  derived      : Derived
  deriving DecidableEq, Repr

/-- The `for rank, item in enumerate(quotes_data["success"], 1)` loop body
(lines 206-265): each entry is read, the metrics are derived, and one row
is appended; a `TypeError` raised by the derivation aborts the whole loop
(it is not caught anywhere in `main`). `rank` is the 1-based counter. -/
def processBatch (market_rate : Option ℚ) : List Item → ℕ → Except PyError (List Row)
  | [], _ => Except.ok []
  | it :: rest, rank =>
      match derive market_rate (itemQuote it) with
      | Except.error e => Except.error e
      | Except.ok d =>
          match processBatch market_rate rest (rank + 1) with
          | Except.error e => Except.error e
          | Except.ok rows =>
              Except.ok ({ provider := itemProviderName it, rank := rank,
                           amountIn := (itemQuote it).amountIn,
                           amountOut := (itemQuote it).amountOut,
                           exchangeRate := (itemQuote it).exchangeRate,
                           marketRate := market_rate, derived := d } :: rows)

/-- Lines 205-265: `if quotes_data.get("success"):` — an absent `success`
key (`none`) or an empty list is falsy, so nothing is appended; otherwise
the batch loop runs starting at rank 1. -/
def processResponse (market_rate : Option ℚ) (success : Option (List Item)) :
    Except PyError (List Row) :=
  match success with
  | none => Except.ok []
  | some items =>
      if items.isEmpty then Except.ok [] else processBatch market_rate items 1

/-- One iteration of the per-payment-method loop (lines 200-269): the
try block covers the fetch and the batch processing, and the sole handler
is `except requests.exceptions.RequestException`, which swallows the error
(`pass`); a fetch failure therefore contributes no rows, while a `PyError`
raised during processing propagates uncaught. `fetched` is the outcome of
`get_quotes` (lines 49-71: any non-2xx or transport error surfaces as a
`ReqError`; on success the `success` key of the JSON, absent ⇒ `none`). -/
def runPaymentMethod (market_rate : Option ℚ)
    (fetched : Except ReqError (Option (List Item))) : Except PyError (List Row) :=
  match fetched with
  | Except.error _ => Except.ok []
  | Except.ok success => processResponse market_rate success

/-- The worked example of the spec: amountIn 1000, networkFee 5,
providerFee 10, extraFee absent (defaults to 0), amountOut 0.49. -/
def exampleQuote : Quote :=
  ⟨some 1000, some 0.49, none, some 5, some 10, none⟩

end Scraper

namespace Scraper

/-- Helper for the rank claim: `processBatch` starting at any rank assigns
consecutive ranks in input order and keeps the providers in input order. -/
theorem processBatch_ranks (rate : Option ℚ) :
    ∀ (items : List Item) (rank : ℕ) (rows : List Row),
      processBatch rate items rank = Except.ok rows →
      rows.map Row.rank = List.range' rank items.length ∧
      rows.map Row.provider = items.map itemProviderName
  | [], _, rows, h => by
      cases h
      simp
  | it :: rest, rank, rows, h => by
      rw [processBatch] at h
      cases hd : derive rate (itemQuote it) with
      | error e => rw [hd] at h; exact absurd h (by simp)
      | ok d =>
        rw [hd] at h
        cases hrest : processBatch rate rest (rank + 1) with
        | error e => rw [hrest] at h; exact absurd h (by simp)
        | ok rows' =>
          rw [hrest] at h
          cases h
          have ih := processBatch_ranks rate rest (rank + 1) rows' hrest
          simp [List.range', ih.1, ih.2]

/-- C1: for every raw quote with market rate `r > 0` and a present nonzero
`amountIn = a` (fees defaulting to 0 when absent), the derivation succeeds
and `expectedAmountOut = (a - networkFee - providerFee - extraFee) / r`;
and on the spec's example (amountIn 1000, networkFee 5, providerFee 10,
extraFee absent, rate 2000, amountOut 0.49) it yields exactly
expectedAmountOut 0.4925, spread 0.0025, spreadPercentage 100/197
(≈ 0.5076%), spreadInFiat 5, totalExplicitFee 15,
totalFeeIncludingSpread 20, totalFeePercentage 2. -/
theorem claim_C1_expected_amount_out_formula (q : Quote) (r a : ℚ)
    (hq : q.amountIn = some a) (hr : 0 < r) (ha : a ≠ 0) :
    (∃ d, derive (some r) q = Except.ok d ∧
      d.expectedAmountOut =
        (a - q.networkFee.getD 0 - q.providerFee.getD 0 - q.extraFee.getD 0) / r) ∧
    derive (some 2000) exampleQuote =
      Except.ok ⟨0.4925, 0.0025, 100 / 197, 5, 15, 20, 2⟩ ∧
    (0.5076 : ℚ) < 100 / 197 ∧ (100 / 197 : ℚ) < 0.5077 := by
  refine ⟨?_, by norm_num [exampleQuote, derive, pyTruthy], by norm_num, by norm_num⟩
  simp only [derive, hq, pyTruthy, Option.getD_some, bne_iff_ne, ne_eq, decide_not]
  rw [if_pos ⟨by simpa using hr.ne', hr, by simpa using ha⟩]
  split
  · exact ⟨_, rfl, rfl⟩
  · exact ⟨_, rfl, rfl⟩

/-- Witness for C1: the general formula instantiated on the example quote
itself (rate 2000, amountIn 1000). -/
theorem claim_C1_expected_amount_out_formula_witness :
    ∃ d, derive (some 2000) exampleQuote = Except.ok d ∧
      d.expectedAmountOut =
        (1000 - (exampleQuote.networkFee.getD 0) - (exampleQuote.providerFee.getD 0) -
          (exampleQuote.extraFee.getD 0)) / 2000 :=
  (claim_C1_expected_amount_out_formula exampleQuote 2000 1000 rfl (by norm_num)
    (by norm_num)).1

/-- C2 (failing part and nearby truth): when `amountIn` is absent the
derivation raises `TypeError` (line 242 compares `None > 0`) instead of
returning the zero-defaulted degraded record; when `amountIn` is present
the degraded path does hold — for an unresolved rate, a zero rate, or a
negative rate, and for a present-but-zero `amountIn`, all four fields
expectedAmountOut/spread/spreadPercentage/spreadInFiat are 0. -/
theorem claim_C2_degraded_path :
    derive none ⟨none, some 0.49, none, some 5, some 10, none⟩ =
      Except.error PyError.typeError ∧
    (∃ d, derive none ⟨some 1000, some 0.49, none, some 5, some 10, none⟩ = Except.ok d ∧
      d.expectedAmountOut = 0 ∧ d.spread = 0 ∧ d.spreadPercentage = 0 ∧ d.spreadInFiat = 0) ∧
    (∃ d, derive (some 0) ⟨some 1000, some 0.49, none, some 5, some 10, none⟩ = Except.ok d ∧
      d.expectedAmountOut = 0 ∧ d.spread = 0 ∧ d.spreadPercentage = 0 ∧ d.spreadInFiat = 0) ∧
    (∃ d, derive (some (-3)) ⟨some 1000, some 0.49, none, some 5, some 10, none⟩ =
        Except.ok d ∧
      d.expectedAmountOut = 0 ∧ d.spread = 0 ∧ d.spreadPercentage = 0 ∧ d.spreadInFiat = 0) ∧
    (∃ d, derive (some 2000) ⟨some 0, some 0.49, none, some 5, some 10, none⟩ = Except.ok d ∧
      d.expectedAmountOut = 0 ∧ d.spread = 0 ∧ d.spreadPercentage = 0 ∧ d.spreadInFiat = 0) := by
  exact ⟨by norm_num [derive, pyTruthy],
    ⟨⟨0, 0, 0, 0, 15, 15, 1.5⟩, by norm_num [derive, pyTruthy], rfl, rfl, rfl, rfl⟩,
    ⟨⟨0, 0, 0, 0, 15, 15, 1.5⟩, by norm_num [derive, pyTruthy], rfl, rfl, rfl, rfl⟩,
    ⟨⟨0, 0, 0, 0, 15, 15, 1.5⟩, by norm_num [derive, pyTruthy], rfl, rfl, rfl, rfl⟩,
    ⟨⟨0, 0, 0, 0, 15, 15, 0⟩, by norm_num [derive, pyTruthy], rfl, rfl, rfl, rfl⟩⟩

/-- C3: the derivation is not total — on a quote with `amountIn` absent it
raises `TypeError` (the unguarded `amount_in > 0` on line 242) for any
market rate; with `amountIn` present and zero it does complete and yields
`totalFeePercentage = 0` as claimed. -/
theorem claim_C3_derivation_not_total :
    derive (some 2000) ⟨none, none, none, none, none, none⟩ =
      Except.error PyError.typeError ∧
    derive (some 2000) ⟨none, some 0.49, none, some 5, some 10, none⟩ =
      Except.error PyError.typeError ∧
    derive none ⟨none, none, none, none, none, none⟩ =
      Except.error PyError.typeError ∧
    (∃ d, derive (some 2000) ⟨some 0, some 0.49, none, some 5, some 10, none⟩ =
        Except.ok d ∧ d.totalFeePercentage = 0) := by
  exact ⟨by norm_num [derive, pyTruthy], by norm_num [derive, pyTruthy],
    by norm_num [derive, pyTruthy],
    ⟨⟨0, 0, 0, 0, 15, 15, 0⟩, by norm_num [derive, pyTruthy], rfl⟩⟩

/-- C4: failures do escape the core — the rate resolver raises
`IndexError` on a pair identifier with fewer than five `/`-separated parts
(lines 12-14 run outside the try block); a quote entry whose `amountIn` is
absent makes the per-payment-method loop raise `TypeError` past its
`except RequestException` handler, killing the sweep.  A quote-fetch
transport failure is absorbed to an empty row list, and for a well-formed
identifier an upstream failure does surface as `None` without raising. -/
theorem claim_C4_failures_escape :
    get_market_rate "x" (fun _ => Outcome.success (some 5)) =
      Except.error PyError.indexError ∧
    runPaymentMethod (some 2000)
      (Except.ok (some [⟨some ⟨some "P"⟩, some ⟨none, some 0.49, none, none, none, none⟩⟩])) =
      Except.error PyError.typeError ∧
    runPaymentMethod (some 2000) (Except.error ReqError.requestException) =
      Except.ok [] ∧
    get_market_rate "/currencies/crypto/1/0x0000000000000000000000000000000000000000"
      (fun _ => Outcome.otherError) = Except.ok ⟨none, [], 1⟩ := by
  refine ⟨rfl, ?_, rfl, rfl⟩
  norm_num [runPaymentMethod, processResponse, processBatch, derive, pyTruthy, itemQuote]

/-- C5: the retry loop makes at most 3 upstream attempts; its sleeps are a
prefix of the strictly increasing delays 1, 2, 4; on three consecutive 429s
it returns `None` having slept 1, 2, 4 — regardless of what a fourth
attempt would have returned — and on any other failure it returns `None`
immediately after a single attempt with no sleep. -/
theorem claim_C5_retry_policy (env : ℕ → Outcome) :
    (resolverLoop env 3 1 0).attempts ≤ 3 ∧
    (resolverLoop env 3 1 0).sleeps <+: [1, 2, 4] ∧
    (env 0 = Outcome.rateLimited → env 1 = Outcome.rateLimited →
      env 2 = Outcome.rateLimited →
      (resolverLoop env 3 1 0).result = none ∧
      (resolverLoop env 3 1 0).sleeps = [1, 2, 4] ∧
      (resolverLoop env 3 1 0).attempts = 3) ∧
    (env 0 = Outcome.otherError →
      (resolverLoop env 3 1 0).result = none ∧
      (resolverLoop env 3 1 0).attempts = 1 ∧
      (resolverLoop env 3 1 0).sleeps = []) := by
  cases h0 : env 0 <;> cases h1 : env 1 <;> cases h2 : env 2 <;>
    simp [resolverLoop, h0, h1, h2]

/-- Witness for C5: three rate-limited responses followed by outcomes that
would have succeeded still yield `None` with sleeps 1, 2, 4. -/
theorem claim_C5_retry_policy_witness :
    (resolverLoop (fun i => if i ≤ 2 then Outcome.rateLimited else Outcome.success (some 5))
        3 1 0).result = none ∧
      (resolverLoop (fun i => if i ≤ 2 then Outcome.rateLimited else Outcome.success (some 5))
        3 1 0).sleeps = [1, 2, 4] ∧
      (resolverLoop (fun i => if i ≤ 2 then Outcome.rateLimited else Outcome.success (some 5))
        3 1 0).attempts = 3 :=
  (claim_C5_retry_policy
    (fun i => if i ≤ 2 then Outcome.rateLimited else Outcome.success (some 5))).2.2.1
    (by decide) (by decide) (by decide)

/-- C6: on a key not yet in the cache, the cache step issues exactly one
upstream call; a second resolve of the same key issues none and returns the
same value (whatever its own fetch would have produced); and a falsy fetch
result (failure or zero rate) is stored as the explicit `None` marker. -/
theorem claim_C6_cache_single_upstream_call (fetch fetch2 : Option ℚ)
    (c : List (String × Option ℚ)) (k : String) (h : c.lookup k = none) :
    (resolveCached fetch c k).2.2 = 1 ∧
    (resolveCached fetch2 (resolveCached fetch c k).2.1 k).2.2 = 0 ∧
    (resolveCached fetch2 (resolveCached fetch c k).2.1 k).1 =
      (resolveCached fetch c k).1 ∧
    (pyTruthy fetch = false →
      ((resolveCached fetch c k).2.1).lookup k = some none) := by
  by_cases hf : pyTruthy fetch <;> simp [resolveCached, h, List.lookup, hf]

/-- Witness for C6: a fresh key, first fetch fails, second resolve
issues no upstream call. -/
theorem claim_C6_cache_single_upstream_call_witness :
    (resolveCached none [] (mkCacheKey "/currencies/crypto/1/0x0" "EUR")).2.2 = 1 ∧
    (resolveCached (some 7)
      (resolveCached none [] (mkCacheKey "/currencies/crypto/1/0x0" "EUR")).2.1
      (mkCacheKey "/currencies/crypto/1/0x0" "EUR")).2.2 = 0 ∧
    ((resolveCached none [] (mkCacheKey "/currencies/crypto/1/0x0" "EUR")).2.1).lookup
      (mkCacheKey "/currencies/crypto/1/0x0" "EUR") = some none :=
  ⟨(claim_C6_cache_single_upstream_call none (some 7) [] _ rfl).1,
   (claim_C6_cache_single_upstream_call none (some 7) [] _ rfl).2.1,
   (claim_C6_cache_single_upstream_call none (some 7) [] _ rfl).2.2.2 rfl⟩

/-- C7: whenever the batch loop completes on a response batch of N
entries, it emits exactly N rows whose ranks are the contiguous sequence
1..N and whose providers are in the order of the upstream response. -/
theorem claim_C7_ranks_contiguous (rate : Option ℚ) (items : List Item)
    (rows : List Row) (h : processBatch rate items 1 = Except.ok rows) :
    rows.map Row.rank = List.range' 1 items.length ∧
    rows.map Row.provider = items.map itemProviderName ∧
    rows.length = items.length := by
  have hr := processBatch_ranks rate items 1 rows h
  refine ⟨hr.1, hr.2, ?_⟩
  have := congrArg List.length hr.1
  simpa using this

/-- Witness for C7: a concrete two-entry batch gets ranks [1, 2] and the
providers in response order. -/
theorem claim_C7_ranks_contiguous_witness :
    ([⟨"A", 1, some 1, none, none, none, ⟨0, 0, 0, 0, 0, 0, 0⟩⟩,
      ⟨"N/A", 2, some 1, none, none, none, ⟨0, 0, 0, 0, 0, 0, 0⟩⟩] : List Row).map Row.rank =
      List.range' 1 2 ∧
    ([⟨"A", 1, some 1, none, none, none, ⟨0, 0, 0, 0, 0, 0, 0⟩⟩,
      ⟨"N/A", 2, some 1, none, none, none, ⟨0, 0, 0, 0, 0, 0, 0⟩⟩] : List Row).map Row.provider =
      ([⟨some ⟨some "A"⟩, some ⟨some 1, none, none, none, none, none⟩⟩,
        ⟨none, some ⟨some 1, none, none, none, none, none⟩⟩] : List Item).map
        itemProviderName := by
  have h := claim_C7_ranks_contiguous none
    [⟨some ⟨some "A"⟩, some ⟨some 1, none, none, none, none, none⟩⟩,
     ⟨none, some ⟨some 1, none, none, none, none, none⟩⟩]
    [⟨"A", 1, some 1, none, none, none, ⟨0, 0, 0, 0, 0, 0, 0⟩⟩,
     ⟨"N/A", 2, some 1, none, none, none, ⟨0, 0, 0, 0, 0, 0, 0⟩⟩]
    (by norm_num [processBatch, derive, pyTruthy, itemQuote, itemProviderName])
  exact ⟨h.1, h.2.1⟩

/-- C8: a successful quote response whose `success` list is empty or
absent produces an empty row list with no exception — through the response
parsing and through the whole per-payment-method step. -/
theorem claim_C8_empty_success_normal (rate : Option ℚ) :
    processResponse rate (some []) = Except.ok [] ∧
    processResponse rate none = Except.ok [] ∧
    runPaymentMethod rate (Except.ok (some [])) = Except.ok [] ∧
    runPaymentMethod rate (Except.ok none) = Except.ok [] := by
  simp [processResponse, runPaymentMethod, List.isEmpty]

/-- C9: a present-but-zero `amountOut` is falsy, so spread,
spreadPercentage and spreadInFiat stay 0 exactly as for an absent
`amountOut`, while `expectedAmountOut` is still computed from `amountIn`,
the fees and the rate. -/
theorem claim_C9_zero_amount_out (q : Quote) (r a : ℚ) (hq : q.amountIn = some a)
    (hout : q.amountOut = some 0) (hr : 0 < r) (ha : a ≠ 0) :
    ∃ d, derive (some r) q = Except.ok d ∧ d.spread = 0 ∧ d.spreadPercentage = 0 ∧
      d.spreadInFiat = 0 ∧
      d.expectedAmountOut =
        (a - q.networkFee.getD 0 - q.providerFee.getD 0 - q.extraFee.getD 0) / r := by
  simp only [derive, hq, hout, pyTruthy, Option.getD_some, bne_iff_ne, ne_eq, decide_not]
  rw [if_pos ⟨by simpa using hr.ne', hr, by simpa using ha⟩]
  rw [if_neg (by simp)]
  exact ⟨_, rfl, rfl, rfl, rfl, rfl⟩

/-- Witness for C9: amountIn 1000, fees 5 and 10, rate 2000, amountOut 0:
the spread fields are 0 and expectedAmountOut is still 985/2000. -/
theorem claim_C9_zero_amount_out_witness :
    ∃ d, derive (some 2000) ⟨some 1000, some 0, none, some 5, some 10, none⟩ =
      Except.ok d ∧ d.spread = 0 ∧ d.spreadPercentage = 0 ∧ d.spreadInFiat = 0 ∧
      d.expectedAmountOut =
        (1000 - ((some (5 : ℚ)).getD 0) - ((some (10 : ℚ)).getD 0) -
          ((none : Option ℚ).getD 0)) / 2000 :=
  claim_C9_zero_amount_out ⟨some 1000, some 0, none, some 5, some 10, none⟩ 2000 1000
    rfl rfl (by norm_num) (by norm_num)

/-- C10: with a positive rate, a present nonzero `amountIn`, explicit fees
at least `amountIn` (so `expectedAmountOut ≤ 0`), and a present nonzero
`amountOut`, the spread is still computed as
`expectedAmountOut - amountOut`, while `spreadPercentage` is 0 because the
division only happens when `expectedAmountOut > 0` — no division error. -/
theorem claim_C10_nonpositive_expected (q : Quote) (r a o : ℚ)
    (hq : q.amountIn = some a) (hout : q.amountOut = some o) (hr : 0 < r)
    (ha : a ≠ 0) (ho : o ≠ 0)
    (hfee : a ≤ q.networkFee.getD 0 + q.providerFee.getD 0 + q.extraFee.getD 0) :
    ∃ d, derive (some r) q = Except.ok d ∧ d.expectedAmountOut ≤ 0 ∧
      d.spread = d.expectedAmountOut - o ∧ d.spreadPercentage = 0 := by
  have hle : (a - q.networkFee.getD 0 - q.providerFee.getD 0 - q.extraFee.getD 0) / r ≤ 0 :=
    div_nonpos_iff.2 (Or.inr ⟨by linarith, hr.le⟩)
  simp only [derive, hq, hout, pyTruthy, Option.getD_some, bne_iff_ne, ne_eq, decide_not]
  rw [if_pos ⟨by simpa using hr.ne', hr, by simpa using ha⟩]
  rw [if_pos (by simpa using ho)]
  rw [if_neg (not_lt.2 hle)]
  exact ⟨_, rfl, hle, rfl, rfl⟩

/-- Witness for C10: amountIn 1000, fees 600 + 600 ≥ 1000, rate 2000,
amountOut 0.5. -/
theorem claim_C10_nonpositive_expected_witness :
    ∃ d, derive (some 2000) ⟨some 1000, some 0.5, none, some 600, some 600, none⟩ =
      Except.ok d ∧ d.expectedAmountOut ≤ 0 ∧ d.spread = d.expectedAmountOut - 0.5 ∧
      d.spreadPercentage = 0 :=
  claim_C10_nonpositive_expected ⟨some 1000, some 0.5, none, some 600, some 600, none⟩
    2000 1000 0.5 rfl rfl (by norm_num) (by norm_num) (by norm_num) (by norm_num)

end Scraper
